import Mathlib

/-!
Shallow embedding of the CryptoMind monitoring service.

Position tracking (`ActiveStrategy`, `checkStrategy`, `updateStrategy`) is
embedded from `src/src/index.ts` (PositionMonitor).  Trigger detection and the
flash-crash circuit breaker (`CircuitBreaker`, `TriggerDetector`) are embedded
from the v3.2.0 service file (`src/unnamed/part_002`), the only place they are
implemented.

Conventions of the embedding:
- JavaScript numbers are modelled as `ℚ` (prices, volumes, thresholds) and
  millisecond timestamps as `ℤ`; `Date.now()` is a single instant per call,
  passed in as a `now : ℤ` argument.
- A JavaScript `Map` is an association list `List (String × α)` with the
  operations `mapGet` / `mapSet` / `mapDelete` (set replaces in place, delete
  removes the key).
- Nullable numeric fields are `Option ℚ`; JavaScript truthiness of such a
  field is `truthy` (`null` and `0` are falsy).
- Asynchronous persistence and notification calls are modelled by an action
  trace (`MonitorAction`, `TriggerAction`) together with an oracle for the
  outcome of each database write (`DbResult`, `insertOk : Bool`).
-/

/-- Lookup in a JavaScript `Map` modelled as an association list
(`Map.prototype.get`). -/
def mapGet {α : Type} : List (String × α) → String → Option α
  | [], _ => none
  | (a, b) :: m, k => if a == k then some b else mapGet m k

/-- `Map.prototype.set`: replace the value at an existing key in place,
otherwise append the new entry. -/
def mapSet {α : Type} : List (String × α) → String → α → List (String × α)
  | [], k, v => [(k, v)]
  | (a, b) :: m, k, v => if a == k then (k, v) :: m else (a, b) :: mapSet m k v

/-- `Map.prototype.delete`: remove the entry with the given key. -/
def mapDelete {α : Type} : List (String × α) → String → List (String × α)
  | [], _ => []
  | (a, b) :: m, k => if a == k then mapDelete m k else (a, b) :: mapDelete m k

theorem mapGet_mapSet_self {α : Type} (m : List (String × α)) (k : String) (v : α) :
    mapGet (mapSet m k v) k = some v := by
  induction m with
  | nil => simp [mapSet, mapGet]
  | cons p m ih =>
    obtain ⟨a, b⟩ := p
    by_cases h : a == k
    · simp [mapSet, mapGet, h]
    · simp [mapSet, mapGet, h, ih]

theorem mapGet_mapDelete_self {α : Type} (m : List (String × α)) (k : String) :
    mapGet (mapDelete m k) k = none := by
  induction m with
  | nil => simp [mapDelete, mapGet]
  | cons p m ih =>
    obtain ⟨a, b⟩ := p
    by_cases h : a == k
    · simp [mapDelete, mapGet, h, ih]
    · simp [mapDelete, mapGet, h, ih]

theorem mapGet_mapDelete_ne {α : Type} (m : List (String × α)) (k k' : String)
    (hne : k' ≠ k) : mapGet (mapDelete m k) k' = mapGet m k' := by
  induction m with
  | nil => simp [mapDelete]
  | cons p m ih =>
    obtain ⟨a, b⟩ := p
    by_cases h : a = k
    · subst h
      have h2 : (a == k') = false := by
        simp only [beq_eq_false_iff_ne, ne_eq]
        exact fun hc => hne hc.symm
      simp [mapDelete, mapGet, h2, ih]
    · have h1 : (a == k) = false := by simp [h]
      simp [mapDelete, mapGet, h1, ih]

/-- `Math.abs` on a JavaScript number. -/
def qabs (x : ℚ) : ℚ := if x < 0 then -x else x

/-!
## Position monitor data model (from `src/src/index.ts`)
-/

/-- `position_type` field of an active strategy. -/
inductive PositionType
  | LONG
  | SHORT
deriving DecidableEq, Repr

/-- `status` field of an active strategy. -/
inductive StrategyStatus
  | waiting_entry
  | in_position
  | paused
  | completed
  | stopped
deriving DecidableEq, Repr

/-- The `ActiveStrategy` record of `src/src/index.ts` (fields not read by
`checkStrategy` — `label`, `started_at` — are omitted). -/
structure ActiveStrategy where
  id : String
  symbol : String
  position_type : PositionType
  entry_min : Option ℚ
  entry_max : Option ℚ
  target_1 : ℚ
  target_2 : ℚ
  target_3 : ℚ
  stop_loss : ℚ
  current_price : ℚ
  targets_hit : ℕ
  status : StrategyStatus
deriving DecidableEq, Repr

/-- JavaScript truthiness of a nullable number: `null` and `0` are falsy. -/
def truthy : Option ℚ → Bool
  | none => false
  | some x => x ≠ 0

/-- `this.EPSILON = 0.001` (0.1% price tolerance). -/
def EPSILON : ℚ := 1 / 1000

/-- The event class recorded in `eventType` by `checkStrategy` (the empty
string is `EventType.none`). -/
inductive EventType
  | none
  | entry_reached
  | target_1
  | target_2
  | target_3
  | stop_loss
deriving DecidableEq, Repr

/-- The local mutable variables of `PositionMonitor.checkStrategy`
(`newTargetsHit`, `newStatus`, `eventType`, `needsUpdate`). -/
structure CheckOutcome where
  newTargetsHit : ℕ
  newStatus : StrategyStatus
  eventType : EventType
  needsUpdate : Bool
deriving DecidableEq, Repr

/-- The entry condition tested inside the entry-range block of
`checkStrategy`: LONG enters when `currentPrice <= entry_max`, SHORT when
`currentPrice >= entry_min`. -/
def entryCond (s : ActiveStrategy) (price : ℚ) : Prop :=
  match s.position_type with
  | .LONG => price ≤ s.entry_max.getD 0
  | .SHORT => s.entry_min.getD 0 ≤ price

instance (s : ActiveStrategy) (price : ℚ) : Decidable (entryCond s price) := by
  unfold entryCond
  cases s.position_type <;> infer_instance

/-- "CHECK ENTRY RANGE" section of `checkStrategy`: guarded by
`status === 'waiting_entry' && entry_min && entry_max` (JS truthiness). -/
def entryPhase (s : ActiveStrategy) (price : ℚ) : CheckOutcome :=
  if s.status = .waiting_entry ∧ truthy s.entry_min = true ∧ truthy s.entry_max = true then
    if entryCond s price then ⟨s.targets_hit, .in_position, .entry_reached, true⟩
    else ⟨s.targets_hit, s.status, .none, false⟩
  else ⟨s.targets_hit, s.status, .none, false⟩

/-- "CHECK TARGETS" section of `checkStrategy`: runs when
`strategy.status === 'in_position' || newStatus === 'in_position'`, branches on
the previously recorded `strategy.targets_hit`, and tests targets from T3 down
to T1 with tolerance `EPSILON` (direction-aware). -/
def targetPhase (s : ActiveStrategy) (price : ℚ) (o : CheckOutcome) : CheckOutcome :=
  if s.status = .in_position ∨ o.newStatus = .in_position then
    if s.targets_hit = 0 then
      if s.position_type = .LONG then
        if s.target_3 * (1 - EPSILON) ≤ price then ⟨3, .completed, .target_3, true⟩
        else if s.target_2 * (1 - EPSILON) ≤ price then ⟨2, o.newStatus, .target_2, true⟩
        else if s.target_1 * (1 - EPSILON) ≤ price then ⟨1, o.newStatus, .target_1, true⟩
        else o
      else
        if price ≤ s.target_3 * (1 + EPSILON) then ⟨3, .completed, .target_3, true⟩
        else if price ≤ s.target_2 * (1 + EPSILON) then ⟨2, o.newStatus, .target_2, true⟩
        else if price ≤ s.target_1 * (1 + EPSILON) then ⟨1, o.newStatus, .target_1, true⟩
        else o
    else if s.targets_hit = 1 then
      if s.position_type = .LONG then
        if s.target_3 * (1 - EPSILON) ≤ price then ⟨3, .completed, .target_3, true⟩
        else if s.target_2 * (1 - EPSILON) ≤ price then ⟨2, o.newStatus, .target_2, true⟩
        else o
      else
        if price ≤ s.target_3 * (1 + EPSILON) then ⟨3, .completed, .target_3, true⟩
        else if price ≤ s.target_2 * (1 + EPSILON) then ⟨2, o.newStatus, .target_2, true⟩
        else o
    else if s.targets_hit = 2 then
      if s.position_type = .LONG then
        if s.target_3 * (1 - EPSILON) ≤ price then ⟨3, .completed, .target_3, true⟩
        else o
      else
        if price ≤ s.target_3 * (1 + EPSILON) then ⟨3, .completed, .target_3, true⟩
        else o
    else o
  else o

/-- "CHECK STOP LOSS" section of `checkStrategy`: runs when the strategy is
(or became) `in_position` and `newStatus` is not already terminal. -/
def stopLossPhase (s : ActiveStrategy) (price : ℚ) (o : CheckOutcome) : CheckOutcome :=
  if (s.status = .in_position ∨ o.newStatus = .in_position) ∧
      o.newStatus ≠ .stopped ∧ o.newStatus ≠ .completed then
    if s.position_type = .LONG then
      if price ≤ s.stop_loss * (1 + EPSILON) then ⟨o.newTargetsHit, .stopped, .stop_loss, true⟩
      else o
    else
      if s.stop_loss * (1 - EPSILON) ≤ price then ⟨o.newTargetsHit, .stopped, .stop_loss, true⟩
      else o
  else o

/-- The pure part of `PositionMonitor.checkStrategy`: the final values of
`newTargetsHit`, `newStatus`, `eventType`, `needsUpdate` after the three
sections ran in program order. -/
def checkStrategyOutcome (s : ActiveStrategy) (price : ℚ) : CheckOutcome :=
  stopLossPhase s price (targetPhase s price (entryPhase s price))

/-- The in-memory update `checkStrategy` performs on its local strategy copy
after the checks (on `needsUpdate` it stores the new targets/status, otherwise
only `current_price` is refreshed). -/
def applyCheck (s : ActiveStrategy) (price : ℚ) : ActiveStrategy :=
  let o := checkStrategyOutcome s price
  if o.needsUpdate then
    { s with targets_hit := o.newTargetsHit, status := o.newStatus, current_price := price }
  else { s with current_price := price }

/-- Outcome of the conditional `active_strategies` update as reported by the
persistence layer: an error, or the number of affected rows returned. -/
inductive DbResult
  | failure
  | rows (n : ℕ)
deriving DecidableEq, Repr

/-- Externally visible persistence / notification calls of the position
monitor. -/
inductive MonitorAction
  | dbUpdateStrategy (id : String) (targetsHit : ℕ) (status : StrategyStatus) (price : ℚ)
  | notify (id : String) (event : EventType)
  | dbSilentPrice (id : String) (price : ℚ)
deriving DecidableEq, Repr

/-- Action trace of `PositionMonitor.updateStrategy`: the conditional update is
always issued; the notification is dispatched only when the update succeeded,
affected at least one row, and an event type was set.  On an error or zero
affected rows the method returns (no retry, no notification). -/
def updateStrategyActions (id : String) (targetsHit : ℕ) (status : StrategyStatus)
    (price : ℚ) (event : EventType) (db : DbResult) : List MonitorAction :=
  let upd := MonitorAction.dbUpdateStrategy id targetsHit status price
  match db with
  | .failure => [upd]
  | .rows 0 => [upd]
  | .rows (_ + 1) =>
    if event ≠ EventType.none then [upd, MonitorAction.notify id event] else [upd]

/-- Action trace of one `checkStrategy` call: a state-changing tick goes
through `updateStrategy`, otherwise only the silent `current_price` update is
issued. -/
def checkStrategyActions (s : ActiveStrategy) (price : ℚ) (db : DbResult) :
    List MonitorAction :=
  let o := checkStrategyOutcome s price
  if o.needsUpdate then updateStrategyActions s.id o.newTargetsHit o.newStatus price o.eventType db
  else [MonitorAction.dbSilentPrice s.id price]

/-!
## Circuit breaker and trigger detector (from the v3.2.0 service file)
-/

/-- A point of a sliding price window (`PricePoint`). -/
structure PricePoint where
  price : ℚ
  timestamp : ℤ
deriving DecidableEq, Repr

/-- Direction of a flash move (`priceChange > 0 ? 'UP' : 'DOWN'`). -/
inductive Direction
  | up
  | down
deriving DecidableEq, Repr

/-- Structured content of the `reason` string returned by
`CircuitBreaker.addPrice`: either the still-active message naming the expiry
instant, or the activation message naming the direction and percent change. -/
inductive BreakerReason
  | activeUntil (expiresAt : ℤ)
  | flash (direction : Direction) (changePercent : ℚ)
deriving DecidableEq, Repr

/-- The `CircuitBreakerState` record. -/
structure BreakerState where
  symbol : String
  activatedAt : ℤ
  expiresAt : ℤ
  direction : Direction
  priceChangePercent : ℚ
deriving DecidableEq, Repr

/-- Return value of `CircuitBreaker.addPrice`. -/
structure BlockResult where
  shouldBlock : Bool
  reason : Option BreakerReason
deriving DecidableEq, Repr

/-- `CONFIG.CIRCUIT_BREAKER_WINDOW = 900000` (15 minutes). -/
def CIRCUIT_BREAKER_WINDOW : ℤ := 900000

/-- `CONFIG.CIRCUIT_BREAKER_THRESHOLD = 0.05` (5% price change). -/
def CIRCUIT_BREAKER_THRESHOLD : ℚ := 5 / 100

/-- `CONFIG.CIRCUIT_BREAKER_COOLDOWN = 1800000` (30 minutes block). -/
def CIRCUIT_BREAKER_COOLDOWN : ℤ := 1800000

/-- The mutable state of the `CircuitBreaker` class: the per-symbol 15-minute
price window and the per-symbol active breaker map. -/
structure CircuitBreaker where
  priceHistory15m : List (String × List PricePoint)
  activeBreakers : List (String × BreakerState)
deriving DecidableEq, Repr

/-- The 15-minute window for `symbol` after `addPrice` pushed the new point and
pruned points older than `CIRCUIT_BREAKER_WINDOW`. -/
def CircuitBreaker.updatedWindow (cb : CircuitBreaker) (symbol : String) (price : ℚ)
    (now : ℤ) : List PricePoint :=
  (((mapGet cb.priceHistory15m symbol).getD []) ++ [(⟨price, now⟩ : PricePoint)]).filter
    (fun p => decide (now - CIRCUIT_BREAKER_WINDOW < p.timestamp))

/-- `(price - oldest.price) / oldest.price` against the oldest surviving window
point (`filtered[0]`). -/
def crashChange (price : ℚ) (window : List PricePoint) : ℚ :=
  match window with
  | [] => 0
  | oldest :: _ => (price - oldest.price) / oldest.price

/-- Flash-crash section of `CircuitBreaker.addPrice`: with at least two window
points and `|change| >= threshold`, activate a breaker expiring after the
cooldown and block; otherwise do not block. -/
def CircuitBreaker.crashCheck (cb : CircuitBreaker) (symbol : String) (price : ℚ)
    (now : ℤ) (window : List PricePoint) : CircuitBreaker × BlockResult :=
  if 2 ≤ window.length then
    let change := crashChange price window
    if CIRCUIT_BREAKER_THRESHOLD ≤ qabs change then
      let dir := if 0 < change then Direction.up else Direction.down
      let st : BreakerState := ⟨symbol, now, now + CIRCUIT_BREAKER_COOLDOWN, dir, change * 100⟩
      ({ cb with activeBreakers := mapSet cb.activeBreakers symbol st },
        ⟨true, some (.flash dir (change * 100))⟩)
    else (cb, ⟨false, none⟩)
  else (cb, ⟨false, none⟩)

/-- `CircuitBreaker.addPrice`: update the window, then report an unexpired
active breaker, or clear an expired one and fall through to the flash-crash
check. -/
def CircuitBreaker.addPrice (cb : CircuitBreaker) (symbol : String) (price : ℚ)
    (now : ℤ) : CircuitBreaker × BlockResult :=
  let window := cb.updatedWindow symbol price now
  let cb1 : CircuitBreaker := { cb with priceHistory15m := mapSet cb.priceHistory15m symbol window }
  match mapGet cb.activeBreakers symbol with
  | some b =>
    if now < b.expiresAt then (cb1, ⟨true, some (.activeUntil b.expiresAt)⟩)
    else
      let cb2 : CircuitBreaker := { cb1 with activeBreakers := mapDelete cb1.activeBreakers symbol }
      cb2.crashCheck symbol price now window
  | none => cb1.crashCheck symbol price now window

/-- `CircuitBreaker.isBlocked`: no breaker means not blocked; an expired
breaker is deleted (lazy expiry) and reported not blocked; otherwise blocked. -/
def CircuitBreaker.isBlocked (cb : CircuitBreaker) (symbol : String) (now : ℤ) :
    CircuitBreaker × Bool :=
  match mapGet cb.activeBreakers symbol with
  | none => (cb, false)
  | some b =>
    if b.expiresAt ≤ now then
      ({ cb with activeBreakers := mapDelete cb.activeBreakers symbol }, false)
    else (cb, true)

/-- `CONFIG.VOLUME_BASELINE_UPDATE = 3600000` (1 hour). -/
def VOLUME_BASELINE_UPDATE : ℤ := 3600000

/-- `CONFIG.PRICE_WINDOW = 300000` (5 minutes). -/
def PRICE_WINDOW : ℤ := 300000

/-- `CONFIG.TRIGGER_COOLDOWN = 300000` (5 minutes). -/
def TRIGGER_COOLDOWN : ℤ := 300000

/-- `CONFIG.VOLUME_SPIKE_THRESHOLD = 1.20`. -/
def VOLUME_SPIKE_THRESHOLD : ℚ := 120 / 100

/-- `CONFIG.PRICE_MOVE_THRESHOLD = 0.005`. -/
def PRICE_MOVE_THRESHOLD : ℚ := 5 / 1000

/-- State of the `BaselineTracker` class (per-symbol EWMA volume baselines and
last-update instants). -/
structure BaselineTrackerState where
  baselines : List (String × ℚ)
  lastUpdate : List (String × ℤ)
deriving DecidableEq, Repr

/-- `BaselineTracker.initialize` (named `initBaseline` here because the source
name is unavailable as a Lean identifier in this development): seed the
baseline only when no baseline exists for the symbol yet. -/
def BaselineTrackerState.initBaseline (st : BaselineTrackerState) (symbol : String)
    (volume : ℚ) (now : ℤ) : BaselineTrackerState :=
  match mapGet st.baselines symbol with
  | some _ => st
  | none => ⟨mapSet st.baselines symbol volume, mapSet st.lastUpdate symbol now⟩

/-- `BaselineTracker.update`: after the configured interval, recompute the
EWMA `baseline*0.8 + currentVolume*0.2` and reset the timestamp. -/
def BaselineTrackerState.update (st : BaselineTrackerState) (symbol : String)
    (currentVolume : ℚ) (now : ℤ) : BaselineTrackerState :=
  let lastUpdateTime := (mapGet st.lastUpdate symbol).getD 0
  if VOLUME_BASELINE_UPDATE ≤ now - lastUpdateTime then
    let oldBaseline := (mapGet st.baselines symbol).getD currentVolume
    ⟨mapSet st.baselines symbol (oldBaseline * (8 / 10) + currentVolume * (2 / 10)),
      mapSet st.lastUpdate symbol now⟩
  else st

/-- `BaselineTracker.check`: `(isSpike, ratio)`; a missing (or zero, by JS
truthiness) baseline yields `(false, 0)`. -/
def BaselineTrackerState.check (st : BaselineTrackerState) (symbol : String)
    (currentVolume : ℚ) (threshold : ℚ) : Bool × ℚ :=
  match mapGet st.baselines symbol with
  | none => (false, 0)
  | some b =>
    if b = 0 then (false, 0)
    else (decide (threshold < currentVolume / b), currentVolume / b)

/-- State of the `PriceHistoryTracker` class (per-symbol 5-minute windows). -/
structure PriceHistoryState where
  history : List (String × List PricePoint)
deriving DecidableEq, Repr

/-- `PriceHistoryTracker.add`: push the new point and prune points older than
`PRICE_WINDOW`. -/
def PriceHistoryState.add (st : PriceHistoryState) (symbol : String) (price : ℚ)
    (now : ℤ) : PriceHistoryState :=
  let points := (mapGet st.history symbol).getD [] ++ [(⟨price, now⟩ : PricePoint)]
  let filtered := points.filter (fun p => decide (now - PRICE_WINDOW < p.timestamp))
  ⟨mapSet st.history symbol filtered⟩

/-- `PriceHistoryTracker.getChange`: percent change from the oldest surviving
window point; `0` on an empty window. -/
def PriceHistoryState.getChange (st : PriceHistoryState) (symbol : String)
    (currentPrice : ℚ) : ℚ :=
  match (mapGet st.history symbol).getD [] with
  | [] => 0
  | oldest :: _ => ((currentPrice - oldest.price) / oldest.price) * 100

/-- `PriceHistoryTracker.check`: `(isTrigger, change)` with
`isTrigger = |change| >= threshold*100`. -/
def PriceHistoryState.check (st : PriceHistoryState) (symbol : String)
    (currentPrice : ℚ) (threshold : ℚ) : Bool × ℚ :=
  let change := qabs (st.getChange symbol currentPrice)
  (decide (threshold * 100 ≤ change), change)

/-- A persisted `monitoring_triggers` row (created only when the insert
succeeds). -/
inductive TriggerAction
  | insertTrigger (symbol : String) (kind : String) (value : ℚ)
deriving DecidableEq, Repr

/-- The mutable state of the `TriggerDetector` class. -/
structure TriggerDetector where
  recentTriggers : List (String × ℤ)
  baseline : BaselineTrackerState
  priceTracker : PriceHistoryState
  circuitBreaker : CircuitBreaker
  volumeThreshold : ℚ
  priceThreshold : ℚ
deriving DecidableEq, Repr

/-- `TriggerDetector.createTrigger`: skip inside the per-`(symbol, kind)`
cooldown; double-check the circuit breaker (whose lazy expiry may mutate it);
record the cooldown timestamp BEFORE the insert outcome is known; then attempt
the insert, which persists a row only when it succeeds (`insertOk`). -/
def TriggerDetector.createTrigger (d : TriggerDetector) (symbol kind : String)
    (value : ℚ) (now : ℤ) (insertOk : Bool) : TriggerDetector × List TriggerAction :=
  let key := symbol ++ "-" ++ kind
  let lastTrigger := (mapGet d.recentTriggers key).getD 0
  if now - lastTrigger < TRIGGER_COOLDOWN then (d, [])
  else
    let ib := d.circuitBreaker.isBlocked symbol now
    let d1 : TriggerDetector := { d with circuitBreaker := ib.1 }
    if ib.2 then (d1, [])
    else
      let d2 : TriggerDetector := { d1 with recentTriggers := mapSet d1.recentTriggers key now }
      if insertOk then (d2, [.insertTrigger symbol kind value]) else (d2, [])

/-- `TriggerDetector.processTicker`: baseline seed/update, price-window push,
then the circuit-breaker gate; when not blocked, the volume-spike and
price-move conditions are evaluated independently and each firing condition
goes through `createTrigger`. -/
def TriggerDetector.processTicker (d : TriggerDetector) (symbol : String)
    (price volume : ℚ) (now : ℤ) (volOk priceOk : Bool) :
    TriggerDetector × List TriggerAction :=
  let b1 := d.baseline.initBaseline symbol volume now
  let b2 := b1.update symbol volume now
  let pt := d.priceTracker.add symbol price now
  let cres := d.circuitBreaker.addPrice symbol price now
  let d1 : TriggerDetector := { d with baseline := b2, priceTracker := pt, circuitBreaker := cres.1 }
  if cres.2.shouldBlock then (d1, [])
  else
    let vcheck := b2.check symbol volume d.volumeThreshold
    let r1 := if vcheck.1 then d1.createTrigger symbol "volume_spike" vcheck.2 now volOk
      else (d1, [])
    let pcheck := pt.check symbol price d.priceThreshold
    let r2 := if pcheck.1 then r1.1.createTrigger symbol "price_move" pcheck.2 now priceOk
      else (r1.1, [])
    (r2.1, r1.2 ++ r2.2)

/-!
## Helper lemmas about the `checkStrategy` phases
-/

theorem entryPhase_status (s : ActiveStrategy) (price : ℚ) :
    (entryPhase s price).newStatus = s.status ∨
      (s.status = .waiting_entry ∧ (entryPhase s price).newStatus = .in_position) := by
  unfold entryPhase
  split_ifs with h1 h2
  · exact Or.inr ⟨h1.1, rfl⟩
  · exact Or.inl rfl
  · exact Or.inl rfl

theorem entryPhase_not_waiting (s : ActiveStrategy) (price : ℚ)
    (h : s.status ≠ .waiting_entry) :
    entryPhase s price = ⟨s.targets_hit, s.status, EventType.none, false⟩ := by
  unfold entryPhase
  rw [if_neg (fun hc => h hc.1)]

theorem targetPhase_status (s : ActiveStrategy) (price : ℚ) (o : CheckOutcome) :
    (targetPhase s price o).newStatus = o.newStatus ∨
      ((s.status = .in_position ∨ o.newStatus = .in_position) ∧
        (targetPhase s price o).newStatus = .completed) := by
  by_cases hg : s.status = .in_position ∨ o.newStatus = .in_position
  · unfold targetPhase
    rw [if_pos hg]
    split_ifs <;> simp [hg]
  · unfold targetPhase
    rw [if_neg hg]
    exact Or.inl rfl

theorem stopLossPhase_status (s : ActiveStrategy) (price : ℚ) (o : CheckOutcome) :
    (stopLossPhase s price o).newStatus = o.newStatus ∨
      ((s.status = .in_position ∨ o.newStatus = .in_position) ∧
        (stopLossPhase s price o).newStatus = .stopped) := by
  by_cases hg : (s.status = .in_position ∨ o.newStatus = .in_position) ∧
      o.newStatus ≠ .stopped ∧ o.newStatus ≠ .completed
  · unfold stopLossPhase
    rw [if_pos hg]
    split_ifs <;> simp [hg.1]
  · unfold stopLossPhase
    rw [if_neg hg]
    exact Or.inl rfl

theorem targetPhase_needsUpdate (s : ActiveStrategy) (price : ℚ) (o : CheckOutcome)
    (h : o.needsUpdate = true) : (targetPhase s price o).needsUpdate = true := by
  unfold targetPhase
  split_ifs <;> simp [h]

theorem stopLossPhase_needsUpdate (s : ActiveStrategy) (price : ℚ) (o : CheckOutcome)
    (h : o.needsUpdate = true) : (stopLossPhase s price o).needsUpdate = true := by
  unfold stopLossPhase
  split_ifs <;> simp [h]

theorem targetPhase_outcome_cases (s : ActiveStrategy) (price : ℚ) (o o' : CheckOutcome)
    (h : o.newStatus = o'.newStatus) :
    targetPhase s price o = targetPhase s price o' ∨
      (targetPhase s price o = o ∧ targetPhase s price o' = o') := by
  unfold targetPhase
  rw [h]
  split_ifs <;> simp

theorem stopLossPhase_outcome_cases (s : ActiveStrategy) (price : ℚ) (o o' : CheckOutcome)
    (h1 : o.newStatus = o'.newStatus) (h2 : o.newTargetsHit = o'.newTargetsHit) :
    stopLossPhase s price o = stopLossPhase s price o' ∨
      (stopLossPhase s price o = o ∧ stopLossPhase s price o' = o') := by
  unfold stopLossPhase
  rw [h1, h2]
  split_ifs <;> simp

/-!
## Claim theorems
-/

/-- Claim C1: a LONG strategy in `in_position` with `targets_hit = 0` that
receives a tick with `price >= target_3*(1-ε)` ends with `targetsHit = 3`,
`status = completed`, and (on a successful conditional update) the tick's
action trace carries exactly one notification, of type `target_3` — no
`target_1` or `target_2` event. -/
theorem C1_target_jump (s : ActiveStrategy) (price : ℚ) (n : ℕ)
    (hdir : s.position_type = .LONG) (hst : s.status = .in_position)
    (hth : s.targets_hit = 0) (hp : s.target_3 * (1 - EPSILON) ≤ price) :
    checkStrategyOutcome s price = ⟨3, .completed, .target_3, true⟩ ∧
      checkStrategyActions s price (.rows (n + 1)) =
        [.dbUpdateStrategy s.id 3 .completed price, .notify s.id .target_3] := by
  have ho : checkStrategyOutcome s price = ⟨3, .completed, .target_3, true⟩ := by
    unfold checkStrategyOutcome
    rw [entryPhase_not_waiting s price (by rw [hst]; simp)]
    unfold targetPhase
    rw [if_pos (Or.inl hst)]
    rw [if_pos hth, if_pos hdir, if_pos hp]
    unfold stopLossPhase
    rw [if_neg]
    simp
  refine ⟨ho, ?_⟩
  unfold checkStrategyActions
  rw [ho]
  simp [updateStrategyActions]

def sC1 : ActiveStrategy :=
  ⟨"s1", "BTCUSDT", .LONG, some 90, some 100, 200, 300, 400, 50, 0, 0, .in_position⟩

/-- Witness for C1 at a concrete LONG strategy and a price above T3. -/
theorem C1_target_jump_witness :
    checkStrategyOutcome sC1 400 = ⟨3, .completed, .target_3, true⟩ ∧
      checkStrategyActions sC1 400 (.rows 1) =
        [.dbUpdateStrategy "s1" 3 .completed 400, .notify "s1" .target_3] :=
  C1_target_jump sC1 400 0 rfl rfl rfl (by with_unfolding_all decide)

/-- Claim C2: a strategy already `in_position` whose tick satisfies the
stop-loss condition (LONG: `price <= stopLoss*(1+ε)`; SHORT:
`price >= stopLoss*(1-ε)`), and whose target evaluation does not complete the
strategy this tick, ends with `status = stopped` (no other terminal status)
and the `stop_loss` event. -/
theorem C2_stop_loss (s : ActiveStrategy) (price : ℚ)
    (hst : s.status = .in_position)
    (hnc : (targetPhase s price (entryPhase s price)).newStatus ≠ .completed)
    (hslL : s.position_type = .LONG → price ≤ s.stop_loss * (1 + EPSILON))
    (hslS : s.position_type = .SHORT → s.stop_loss * (1 - EPSILON) ≤ price) :
    (checkStrategyOutcome s price).newStatus = .stopped ∧
      (checkStrategyOutcome s price).eventType = .stop_loss ∧
      (checkStrategyOutcome s price).needsUpdate = true := by
  have h1 : (entryPhase s price).newStatus = .in_position := by
    rcases entryPhase_status s price with h | ⟨hw, _⟩
    · rw [h, hst]
    · rw [hst] at hw
      simp at hw
  have h2 : (targetPhase s price (entryPhase s price)).newStatus = .in_position := by
    rcases targetPhase_status s price (entryPhase s price) with h | ⟨_, h⟩
    · rw [h, h1]
    · exact absurd h hnc
  unfold checkStrategyOutcome stopLossPhase
  rw [if_pos ⟨Or.inl hst, by simp [h2], by simp [h2]⟩]
  cases hpt : s.position_type with
  | LONG =>
    rw [if_pos rfl, if_pos (hslL hpt)]
    exact ⟨rfl, rfl, rfl⟩
  | SHORT =>
    rw [if_neg (by simp [hpt]), if_pos (hslS hpt)]
    exact ⟨rfl, rfl, rfl⟩

def sC2 : ActiveStrategy :=
  ⟨"s2", "ETHUSDT", .LONG, some 90, some 100, 200, 300, 400, 100, 0, 0, .in_position⟩

/-- Witness for C2 at a concrete LONG strategy whose tick hits the stop. -/
theorem C2_stop_loss_witness :
    (checkStrategyOutcome sC2 50).newStatus = .stopped ∧
      (checkStrategyOutcome sC2 50).eventType = .stop_loss ∧
      (checkStrategyOutcome sC2 50).needsUpdate = true :=
  C2_stop_loss sC2 50 rfl (by with_unfolding_all decide)
    (fun _ => by with_unfolding_all decide) (fun h => absurd h (by decide))

/-- Claim C8: when the conditional `active_strategies` update reports zero
affected rows, a state-changing tick produces exactly the one conditional
update in its action trace — no notification is dispatched and no retry is
attempted. -/
theorem C8_race_discard (s : ActiveStrategy) (price : ℚ)
    (h : (checkStrategyOutcome s price).needsUpdate = true) :
    checkStrategyActions s price (.rows 0) =
      [.dbUpdateStrategy s.id (checkStrategyOutcome s price).newTargetsHit
        (checkStrategyOutcome s price).newStatus price] := by
  unfold checkStrategyActions
  rw [if_pos h]
  rfl

def sC8 : ActiveStrategy :=
  ⟨"s8", "BNBUSDT", .LONG, some 90, some 100, 200, 300, 400, 50, 0, 0, .in_position⟩

/-- Witness for C8 at a concrete state-changing tick (T1 hit) whose update
affects zero rows. -/
theorem C8_race_discard_witness :
    checkStrategyActions sC8 200 (.rows 0) =
      [.dbUpdateStrategy "s8" (checkStrategyOutcome sC8 200).newTargetsHit
        (checkStrategyOutcome sC8 200).newStatus 200] :=
  C8_race_discard sC8 200 (by with_unfolding_all decide)

/-- The status DAG of the spec:
`waiting_entry → in_position → {completed, stopped}` (reflexive-transitive
reachability; `paused` has no outgoing edges). -/
def dagReach : StrategyStatus → StrategyStatus → Bool
  | .waiting_entry, .waiting_entry => true
  | .waiting_entry, .in_position => true
  | .waiting_entry, .completed => true
  | .waiting_entry, .stopped => true
  | .in_position, .in_position => true
  | .in_position, .completed => true
  | .in_position, .stopped => true
  | .completed, .completed => true
  | .stopped, .stopped => true
  | .paused, .paused => true
  | _, _ => false

/-- A `waiting_entry` tick whose entry guard or entry condition fails leaves
the `checkStrategy` outcome entirely untouched: no target, no stop-loss, no
event, no state-changing update. -/
theorem checkStrategy_no_entry (s : ActiveStrategy) (price : ℚ)
    (hst : s.status = .waiting_entry)
    (hne : ¬(truthy s.entry_min = true ∧ truthy s.entry_max = true ∧ entryCond s price)) :
    checkStrategyOutcome s price = ⟨s.targets_hit, .waiting_entry, EventType.none, false⟩ := by
  have h1 : entryPhase s price = ⟨s.targets_hit, .waiting_entry, EventType.none, false⟩ := by
    unfold entryPhase
    by_cases hc : truthy s.entry_min = true ∧ truthy s.entry_max = true
    · rw [if_pos ⟨hst, hc.1, hc.2⟩, if_neg (fun h => hne ⟨hc.1, hc.2, h⟩), hst]
    · rw [if_neg (fun h => hc ⟨h.2.1, h.2.2⟩), hst]
  unfold checkStrategyOutcome
  rw [h1]
  have h2 : targetPhase s price ⟨s.targets_hit, .waiting_entry, EventType.none, false⟩ =
      ⟨s.targets_hit, .waiting_entry, EventType.none, false⟩ := by
    unfold targetPhase
    rw [if_neg]
    simp [hst]
  rw [h2]
  unfold stopLossPhase
  rw [if_neg]
  simp [hst]

/-- Claim C3: every tick's status transition follows the DAG
`waiting_entry → in_position → {completed, stopped}` (with `paused` and the
terminal statuses fixed); in particular a `waiting_entry` strategy whose entry
condition fails keeps its status and receives no target or stop-loss outcome
in that tick. -/
theorem C3_status_dag (s : ActiveStrategy) (price : ℚ) :
    dagReach s.status (checkStrategyOutcome s price).newStatus = true ∧
      (s.status = .waiting_entry →
        ¬(truthy s.entry_min = true ∧ truthy s.entry_max = true ∧ entryCond s price) →
        checkStrategyOutcome s price = ⟨s.targets_hit, .waiting_entry, EventType.none, false⟩) := by
  refine ⟨?_, checkStrategy_no_entry s price⟩
  have hE := entryPhase_status s price
  have hT := targetPhase_status s price (entryPhase s price)
  have hS := stopLossPhase_status s price (targetPhase s price (entryPhase s price))
  show dagReach s.status
    (stopLossPhase s price (targetPhase s price (entryPhase s price))).newStatus = true
  cases hs : s.status <;>
    rw [hs] at hE hT hS <;>
    rcases hE with h1 | ⟨hw, h1⟩ <;>
    rcases hT with h2 | ⟨hg2, h2⟩ <;>
    rcases hS with h3 | ⟨hg3, h3⟩ <;>
    simp_all [dagReach]

def sC3 : ActiveStrategy :=
  ⟨"s3", "SOLUSDT", .LONG, some 90, some 100, 200, 300, 400, 50, 0, 0, .waiting_entry⟩

/-- Witness for C3 at a concrete `waiting_entry` LONG strategy whose tick
price is above the entry zone. -/
theorem C3_status_dag_witness :
    dagReach sC3.status (checkStrategyOutcome sC3 150).newStatus = true ∧
      checkStrategyOutcome sC3 150 = ⟨0, .waiting_entry, EventType.none, false⟩ :=
  ⟨(C3_status_dag sC3 150).1,
    (C3_status_dag sC3 150).2 rfl (by with_unfolding_all decide)⟩

/-- With a falsy (`null` or `0`) entry bound, a `waiting_entry` tick only
refreshes `current_price` in memory. -/
theorem applyCheck_falsy (s : ActiveStrategy) (price : ℚ)
    (hst : s.status = .waiting_entry)
    (hfal : truthy s.entry_min = false ∨ truthy s.entry_max = false) :
    applyCheck s price = { s with current_price := price } := by
  unfold applyCheck
  rw [checkStrategy_no_entry s price hst (by
    rintro ⟨h1, h2, -⟩
    rcases hfal with h | h
    · rw [h] at h1; exact Bool.noConfusion h1
    · rw [h] at h2; exact Bool.noConfusion h2)]
  rfl

/-- Iterating ticks over a `waiting_entry` strategy with a falsy entry bound
never leaves `waiting_entry`. -/
theorem foldl_applyCheck_falsy (prices : List ℚ) : ∀ s : ActiveStrategy,
    s.status = .waiting_entry →
    (truthy s.entry_min = false ∨ truthy s.entry_max = false) →
    (prices.foldl applyCheck s).status = .waiting_entry := by
  induction prices with
  | nil => exact fun s h _ => h
  | cons p ps ih =>
    intro s h hf
    rw [List.foldl_cons, applyCheck_falsy s p h hf]
    exact ih _ h hf

/-- Claim C10: the entry check is guarded by JS truthiness of both bounds, so
a `waiting_entry` strategy whose `entry_min` or `entry_max` is `null` or
exactly `0` is never entered: every tick leaves the outcome event-free with
status `waiting_entry`, and any sequence of ticks keeps it in
`waiting_entry`. -/
theorem C10_falsy_entry_guard (s : ActiveStrategy) (prices : List ℚ)
    (hst : s.status = .waiting_entry)
    (hfal : truthy s.entry_min = false ∨ truthy s.entry_max = false) :
    (∀ price : ℚ, checkStrategyOutcome s price =
        ⟨s.targets_hit, .waiting_entry, EventType.none, false⟩) ∧
      (prices.foldl applyCheck s).status = .waiting_entry := by
  refine ⟨fun price => ?_, foldl_applyCheck_falsy prices s hst hfal⟩
  refine checkStrategy_no_entry s price hst ?_
  rintro ⟨h1, h2, -⟩
  rcases hfal with h | h
  · rw [h] at h1; exact Bool.noConfusion h1
  · rw [h] at h2; exact Bool.noConfusion h2

def sC10 : ActiveStrategy :=
  ⟨"s10", "XRPUSDT", .LONG, some 0, some 100, 200, 300, 400, 50, 0, 0, .waiting_entry⟩

/-- Witness for C10 at a concrete strategy with `entry_min = 0` (falsy). -/
theorem C10_falsy_entry_guard_witness :
    checkStrategyOutcome sC10 40 = ⟨0, .waiting_entry, EventType.none, false⟩ ∧
      (([40, 90, 1000] : List ℚ).foldl applyCheck sC10).status = .waiting_entry := by
  have h := C10_falsy_entry_guard sC10 [40, 90, 1000] rfl (Or.inl (by decide))
  exact ⟨h.1 40, h.2⟩

/-- The target section reads the strategy's `status` only in its guard, so an
outcome already marked `in_position` makes the stored status irrelevant. -/
theorem targetPhase_status_irrel (s : ActiveStrategy) (st' : StrategyStatus) (price : ℚ)
    (o : CheckOutcome) (ho : o.newStatus = .in_position) :
    targetPhase { s with status := st' } price o = targetPhase s price o := by
  have hg1 : ({ s with status := st' } : ActiveStrategy).status = .in_position ∨
      o.newStatus = .in_position := Or.inr ho
  have hg2 : s.status = .in_position ∨ o.newStatus = .in_position := Or.inr ho
  unfold targetPhase
  rw [if_pos hg1, if_pos hg2]

/-- Same status-irrelevance for the stop-loss section, for the outcomes the
target section can produce (`in_position` or `completed`). -/
theorem stopLossPhase_status_irrel (s : ActiveStrategy) (st' : StrategyStatus) (price : ℚ)
    (o : CheckOutcome) (ho : o.newStatus = .in_position ∨ o.newStatus = .completed) :
    stopLossPhase { s with status := st' } price o = stopLossPhase s price o := by
  rcases ho with h | h
  · have hg1 : (({ s with status := st' } : ActiveStrategy).status = .in_position ∨
        o.newStatus = .in_position) ∧ o.newStatus ≠ .stopped ∧ o.newStatus ≠ .completed :=
      ⟨Or.inr h, by simp [h], by simp [h]⟩
    have hg2 : (s.status = .in_position ∨ o.newStatus = .in_position) ∧
        o.newStatus ≠ .stopped ∧ o.newStatus ≠ .completed :=
      ⟨Or.inr h, by simp [h], by simp [h]⟩
    unfold stopLossPhase
    rw [if_pos hg1, if_pos hg2]
  · unfold stopLossPhase
    rw [if_neg (fun hc => hc.2.2 h), if_neg (fun hc => hc.2.2 h)]

/-- Claim C7: a `waiting_entry` strategy with a (truthy) entry range whose
tick satisfies the entry condition transitions to `in_position` with the
`entry_reached` event recorded, and target/stop evaluation continues in the
same tick: the tick is state-changing, and its outcome is either exactly the
entry outcome or identical to the outcome the same strategy would produce if
it had already been `in_position` (a single tick may both enter and hit a
target). -/
theorem C7_entry_transition (s : ActiveStrategy) (price : ℚ)
    (hst : s.status = .waiting_entry)
    (hmin : truthy s.entry_min = true) (hmax : truthy s.entry_max = true)
    (hcond : entryCond s price) :
    entryPhase s price = ⟨s.targets_hit, .in_position, .entry_reached, true⟩ ∧
      (checkStrategyOutcome s price).needsUpdate = true ∧
      (checkStrategyOutcome s price = ⟨s.targets_hit, .in_position, .entry_reached, true⟩ ∨
        checkStrategyOutcome s price =
          checkStrategyOutcome { s with status := StrategyStatus.in_position } price) := by
  have hE : entryPhase s price = ⟨s.targets_hit, .in_position, .entry_reached, true⟩ := by
    unfold entryPhase
    rw [if_pos ⟨hst, hmin, hmax⟩, if_pos hcond]
  refine ⟨hE, ?_, ?_⟩
  · unfold checkStrategyOutcome
    rw [hE]
    exact stopLossPhase_needsUpdate _ _ _ (targetPhase_needsUpdate _ _ _ rfl)
  · set eo : CheckOutcome := ⟨s.targets_hit, .in_position, .entry_reached, true⟩ with heo
    set io : CheckOutcome := ⟨s.targets_hit, .in_position, EventType.none, false⟩ with hio
    have hL : checkStrategyOutcome s price = stopLossPhase s price (targetPhase s price eo) := by
      unfold checkStrategyOutcome
      rw [hE]
    have hR : checkStrategyOutcome { s with status := StrategyStatus.in_position } price =
        stopLossPhase s price (targetPhase s price io) := by
      unfold checkStrategyOutcome
      rw [entryPhase_not_waiting _ price (by simp)]
      rw [targetPhase_status_irrel s _ price io rfl]
      rw [stopLossPhase_status_irrel s _ price (targetPhase s price io) ?hstat]
      case hstat =>
        rcases targetPhase_status s price io with h | ⟨_, h⟩
        · exact Or.inl h
        · exact Or.inr h
    rcases targetPhase_outcome_cases s price eo io rfl with htp | ⟨htpe, htpi⟩
    · right
      rw [hL, hR, htp]
    · have hsl := stopLossPhase_outcome_cases s price eo io rfl rfl
      rcases hsl with hsl | ⟨hsle, hsli⟩
      · right
        rw [hL, hR, htpe, htpi, hsl]
      · left
        rw [hL, htpe, hsle]

def sC7 : ActiveStrategy :=
  ⟨"s7", "ADAUSDT", .LONG, some 90, some 100, 200, 300, 400, 50, 0, 0, .waiting_entry⟩

/-- Witness for C7 at a concrete LONG strategy entering at a tick inside the
entry zone. -/
theorem C7_entry_transition_witness :
    entryPhase sC7 95 = ⟨0, .in_position, .entry_reached, true⟩ ∧
      (checkStrategyOutcome sC7 95).needsUpdate = true ∧
      (checkStrategyOutcome sC7 95 = ⟨0, .in_position, .entry_reached, true⟩ ∨
        checkStrategyOutcome sC7 95 =
          checkStrategyOutcome { sC7 with status := StrategyStatus.in_position } 95) :=
  C7_entry_transition sC7 95 rfl (by decide) (by decide) (by with_unfolding_all decide)

/-- The breaker record `crashCheck` activates for a given relative change:
expiry after the cooldown and a direction read off the sign of the change. -/
def activatedState (symbol : String) (now : ℤ) (change : ℚ) : BreakerState :=
  ⟨symbol, now, now + CIRCUIT_BREAKER_COOLDOWN,
    (if 0 < change then Direction.up else Direction.down), change * 100⟩

/-- When the pruned window holds at least two points and the change magnitude
reaches the threshold, `crashCheck` activates a breaker with
`expiresAt = now + cooldown` and blocks. -/
theorem crashCheck_fires (cb : CircuitBreaker) (symbol : String) (price : ℚ) (now : ℤ)
    (window : List PricePoint)
    (hlen : 2 ≤ window.length)
    (hthr : CIRCUIT_BREAKER_THRESHOLD ≤ qabs (crashChange price window)) :
    cb.crashCheck symbol price now window =
      ({ cb with
          activeBreakers := mapSet cb.activeBreakers symbol
            (activatedState symbol now (crashChange price window)) },
        ⟨true, some (.flash
          (if 0 < crashChange price window then Direction.up else Direction.down)
          (crashChange price window * 100))⟩) := by
  unfold CircuitBreaker.crashCheck activatedState
  rw [if_pos hlen, if_pos hthr]

/-- Without a crash condition, `crashCheck` leaves the breaker state alone and
does not block. -/
theorem crashCheck_quiet (cb : CircuitBreaker) (symbol : String) (price : ℚ) (now : ℤ)
    (window : List PricePoint)
    (h : ¬(2 ≤ window.length ∧ CIRCUIT_BREAKER_THRESHOLD ≤ qabs (crashChange price window))) :
    cb.crashCheck symbol price now window = (cb, ⟨false, none⟩) := by
  unfold CircuitBreaker.crashCheck
  by_cases h1 : 2 ≤ window.length
  · rw [if_pos h1, if_neg (fun h2 => h ⟨h1, h2⟩)]
  · rw [if_neg h1]

/-- Claim C4: `CircuitBreaker.addPrice` lifecycle.  (1) With no unexpired
breaker, a window of at least two points whose relative change reaches the
threshold activates a breaker with `expiresAt = now + cooldown` and blocks,
with a reason naming the direction (`down` for a drop).  (2) Any call while an
unexpired breaker exists blocks and keeps that breaker.  (3) A call at or
after expiry clears the breaker and, absent a new crash condition in the
window, does not block. -/
theorem C4_breaker_lifecycle (cb : CircuitBreaker) (symbol : String) (price : ℚ) (now : ℤ) :
    ((∀ b, mapGet cb.activeBreakers symbol = some b → b.expiresAt ≤ now) →
      2 ≤ (cb.updatedWindow symbol price now).length →
      CIRCUIT_BREAKER_THRESHOLD ≤ qabs (crashChange price (cb.updatedWindow symbol price now)) →
      ((cb.addPrice symbol price now).2.shouldBlock = true ∧
        mapGet (cb.addPrice symbol price now).1.activeBreakers symbol =
          some (activatedState symbol now
            (crashChange price (cb.updatedWindow symbol price now))) ∧
        (crashChange price (cb.updatedWindow symbol price now) < 0 →
          (cb.addPrice symbol price now).2.reason =
            some (.flash Direction.down
              (crashChange price (cb.updatedWindow symbol price now) * 100))))) ∧
    (∀ b, mapGet cb.activeBreakers symbol = some b → now < b.expiresAt →
      ((cb.addPrice symbol price now).2.shouldBlock = true ∧
        mapGet (cb.addPrice symbol price now).1.activeBreakers symbol = some b)) ∧
    (∀ b, mapGet cb.activeBreakers symbol = some b → b.expiresAt ≤ now →
      ¬(2 ≤ (cb.updatedWindow symbol price now).length ∧
        CIRCUIT_BREAKER_THRESHOLD ≤
          qabs (crashChange price (cb.updatedWindow symbol price now))) →
      ((cb.addPrice symbol price now).2.shouldBlock = false ∧
        mapGet (cb.addPrice symbol price now).1.activeBreakers symbol = none)) := by
  refine ⟨?_, ?_, ?_⟩
  · intro hnb hlen hthr
    unfold CircuitBreaker.addPrice
    rcases hm : mapGet cb.activeBreakers symbol with _ | b
    · simp only [hm]
      rw [crashCheck_fires _ _ _ _ _ hlen hthr]
      refine ⟨rfl, mapGet_mapSet_self _ _ _, fun hneg => ?_⟩
      rw [if_neg (not_lt.mpr hneg.le)]
    · simp only [hm]
      rw [if_neg (not_lt.mpr (hnb b hm))]
      rw [crashCheck_fires _ _ _ _ _ hlen hthr]
      refine ⟨rfl, mapGet_mapSet_self _ _ _, fun hneg => ?_⟩
      rw [if_neg (not_lt.mpr hneg.le)]
  · intro b hm hlt
    unfold CircuitBreaker.addPrice
    simp only [hm]
    rw [if_pos hlt]
    exact ⟨rfl, hm⟩
  · intro b hm hexp hq
    unfold CircuitBreaker.addPrice
    simp only [hm]
    rw [if_neg (not_lt.mpr hexp)]
    rw [crashCheck_quiet _ _ _ _ _ hq]
    exact ⟨rfl, mapGet_mapDelete_self _ _⟩

def cbW : CircuitBreaker := ⟨[("BTCUSDT", [⟨100, 0⟩])], []⟩

def cbW2 : CircuitBreaker := (cbW.addPrice "BTCUSDT" 94 60000).1

/-- Witness for C4: the spec's `100 → 94` sequence (−6% within the window)
activates the breaker; a call during the 30-minute cooldown still blocks; the
first call at expiry clears the breaker and does not block. -/
theorem C4_breaker_lifecycle_witness :
    (cbW.addPrice "BTCUSDT" 94 60000).2.shouldBlock = true ∧
      mapGet (cbW.addPrice "BTCUSDT" 94 60000).1.activeBreakers "BTCUSDT" =
        some (activatedState "BTCUSDT" 60000
          (crashChange 94 (cbW.updatedWindow "BTCUSDT" 94 60000))) ∧
      (cbW2.addPrice "BTCUSDT" 94 100000).2.shouldBlock = true ∧
      (cbW2.addPrice "BTCUSDT" 94 1860000).2.shouldBlock = false ∧
      mapGet (cbW2.addPrice "BTCUSDT" 94 1860000).1.activeBreakers "BTCUSDT" = none := by
  have h1 := (C4_breaker_lifecycle cbW "BTCUSDT" 94 60000).1
    (fun b h => Option.noConfusion h) (by with_unfolding_all decide)
    (by with_unfolding_all decide)
  have hb : mapGet cbW2.activeBreakers "BTCUSDT" =
      some (activatedState "BTCUSDT" 60000
        (crashChange 94 (cbW.updatedWindow "BTCUSDT" 94 60000))) := h1.2.1
  have h2 := (C4_breaker_lifecycle cbW2 "BTCUSDT" 94 100000).2.1 _ hb
    (by with_unfolding_all decide)
  have h3 := (C4_breaker_lifecycle cbW2 "BTCUSDT" 94 1860000).2.2 _ hb
    (by with_unfolding_all decide) (by with_unfolding_all decide)
  exact ⟨h1.1, h1.2.1, h2.1, h3.1, h3.2⟩

def cbC9 : CircuitBreaker :=
  ⟨[], [("BTCUSDT", ⟨"BTCUSDT", 0, 100, .down, -6⟩)]⟩

/-- Counterexample to C9: with an expired breaker present, `isBlocked` is not
read-only — it deletes the breaker, so the state after the call differs from
the state before it (the claimed frame condition fails). -/
theorem C9_isBlocked_counterexample :
    (cbC9.isBlocked "BTCUSDT" 100).1 ≠ cbC9 ∧ (cbC9.isBlocked "BTCUSDT" 100).2 = false := by
  with_unfolding_all decide

/-- Claim C9 (amended): `isBlocked` returns `true` exactly when an unexpired
breaker exists for the symbol; it never touches the price windows and leaves
the state entirely unchanged when the symbol has no breaker or an unexpired
one, but when the symbol's breaker has expired it lazily deletes that entry
(other symbols' entries are preserved). -/
theorem C9_isBlocked_lazy_expiry (cb : CircuitBreaker) (symbol : String) (now : ℤ) :
    ((cb.isBlocked symbol now).2 = true ↔
      ∃ b, mapGet cb.activeBreakers symbol = some b ∧ now < b.expiresAt) ∧
      (cb.isBlocked symbol now).1.priceHistory15m = cb.priceHistory15m ∧
      (mapGet cb.activeBreakers symbol = none → (cb.isBlocked symbol now).1 = cb) ∧
      (∀ b, mapGet cb.activeBreakers symbol = some b → now < b.expiresAt →
        (cb.isBlocked symbol now).1 = cb) ∧
      (∀ b, mapGet cb.activeBreakers symbol = some b → b.expiresAt ≤ now →
        (cb.isBlocked symbol now).1.activeBreakers = mapDelete cb.activeBreakers symbol) ∧
      (∀ sym, sym ≠ symbol →
        mapGet (cb.isBlocked symbol now).1.activeBreakers sym =
          mapGet cb.activeBreakers sym) := by
  rcases hm : mapGet cb.activeBreakers symbol with _ | b
  · have hred : cb.isBlocked symbol now = (cb, false) := by
      unfold CircuitBreaker.isBlocked
      rw [hm]
    rw [hred]
    refine ⟨by simp [hm], rfl, fun _ => rfl, fun _ _ _ => rfl,
      fun b hb _ => Option.noConfusion hb, fun _ _ => rfl⟩
  · have hred : cb.isBlocked symbol now =
        if b.expiresAt ≤ now then
          ({ cb with activeBreakers := mapDelete cb.activeBreakers symbol }, false)
        else (cb, true) := by
      unfold CircuitBreaker.isBlocked
      rw [hm]
    rw [hred]
    by_cases hexp : b.expiresAt ≤ now
    · rw [if_pos hexp]
      refine ⟨?_, rfl, fun hnone => Option.noConfusion hnone, ?_, ?_, ?_⟩
      · constructor
        · intro h
          exact Bool.noConfusion h
        · rintro ⟨b', hb', hlt⟩
          have hbb : b' = b := (Option.some.inj hb').symm
          exact absurd hlt (not_lt.mpr (hbb ▸ hexp))
      · intro b' hb' hlt
        have hbb : b' = b := (Option.some.inj hb').symm
        exact absurd hlt (not_lt.mpr (hbb ▸ hexp))
      · intro b' hb' hexp'
        rfl
      · intro sym h
        exact mapGet_mapDelete_ne _ _ _ h
    · rw [if_neg hexp]
      refine ⟨⟨fun _ => ⟨b, rfl, lt_of_not_le hexp⟩, fun _ => rfl⟩, rfl, fun _ => rfl,
        fun _ _ _ => rfl, ?_, fun _ _ => rfl⟩
      intro b' hb' hexp'
      have hbb : b' = b := (Option.some.inj hb').symm
      exact absurd hexp' (by rw [hbb]; exact hexp)

def cbC9b : CircuitBreaker :=
  ⟨[], [("BTCUSDT", ⟨"BTCUSDT", 0, 100, .down, -6⟩)]⟩

/-- Witness for the amended C9 at a concrete unexpired breaker: blocked, and
the state is untouched. -/
theorem C9_isBlocked_lazy_expiry_witness :
    (cbC9b.isBlocked "BTCUSDT" 50).2 = true ∧ (cbC9b.isBlocked "BTCUSDT" 50).1 = cbC9b := by
  have h := C9_isBlocked_lazy_expiry cbC9b "BTCUSDT" 50
  refine ⟨h.1.mpr ⟨⟨"BTCUSDT", 0, 100, .down, -6⟩, by with_unfolding_all decide, by decide⟩,
    h.2.2.2.1 ⟨"BTCUSDT", 0, 100, .down, -6⟩ (by with_unfolding_all decide) (by decide)⟩

/-- Claim C5: on any tick for which `CircuitBreaker.addPrice` reports
`shouldBlock`, `processTicker` returns before trigger detection: no trigger of
either kind is persisted and no cooldown timestamp is recorded — the breaker
gates the entire detector. -/
theorem C5_breaker_gates_detector (d : TriggerDetector) (symbol : String)
    (price volume : ℚ) (now : ℤ) (volOk priceOk : Bool)
    (hb : (d.circuitBreaker.addPrice symbol price now).2.shouldBlock = true) :
    (d.processTicker symbol price volume now volOk priceOk).2 = [] ∧
      (d.processTicker symbol price volume now volOk priceOk).1.recentTriggers =
        d.recentTriggers := by
  unfold TriggerDetector.processTicker
  rw [if_pos hb]
  exact ⟨rfl, rfl⟩

def dC5 : TriggerDetector :=
  ⟨[], ⟨[("BTCUSDT", 1000)], [("BTCUSDT", 0)]⟩, ⟨[]⟩,
    ⟨[], [("BTCUSDT", ⟨"BTCUSDT", 0, 1800000, .down, -6⟩)]⟩,
    VOLUME_SPIKE_THRESHOLD, PRICE_MOVE_THRESHOLD⟩

/-- Witness for C5 at a detector whose symbol has an unexpired breaker. -/
theorem C5_breaker_gates_detector_witness :
    (dC5.processTicker "BTCUSDT" 100 5000 60000 true true).2 = [] ∧
      (dC5.processTicker "BTCUSDT" 100 5000 60000 true true).1.recentTriggers = [] :=
  C5_breaker_gates_detector dC5 "BTCUSDT" 100 5000 60000 true true
    (by with_unfolding_all decide)

/-- A `createTrigger` call inside the cooldown window returns immediately:
nothing is persisted and the detector state is untouched. -/
theorem createTrigger_skip (d : TriggerDetector) (symbol kind : String) (v : ℚ)
    (t : ℤ) (ok : Bool)
    (h : t - (mapGet d.recentTriggers (symbol ++ "-" ++ kind)).getD 0 < TRIGGER_COOLDOWN) :
    d.createTrigger symbol kind v t ok = (d, []) := by
  unfold TriggerDetector.createTrigger
  rw [if_pos h]

/-- Claim C6: per-`(symbol, kind)` trigger cooldown.  A first qualifying
`createTrigger` call records the cooldown timestamp before the insert outcome
is known (a successful insert persists exactly one trigger, a failed insert
persists none, the timestamp is recorded either way); a second call for the
same symbol and kind within the cooldown window is skipped silently — it
persists nothing and leaves the detector state untouched. -/
theorem C6_trigger_cooldown (d : TriggerDetector) (symbol kind : String)
    (v1 v2 : ℚ) (t1 t2 : ℤ) (ok1 ok2 : Bool)
    (hcd : TRIGGER_COOLDOWN ≤ t1 - (mapGet d.recentTriggers (symbol ++ "-" ++ kind)).getD 0)
    (hnb : (d.circuitBreaker.isBlocked symbol t1).2 = false)
    (hwin : t2 - t1 < TRIGGER_COOLDOWN) :
    mapGet (d.createTrigger symbol kind v1 t1 ok1).1.recentTriggers
        (symbol ++ "-" ++ kind) = some t1 ∧
      (ok1 = true → (d.createTrigger symbol kind v1 t1 ok1).2 =
        [.insertTrigger symbol kind v1]) ∧
      (ok1 = false → (d.createTrigger symbol kind v1 t1 ok1).2 = []) ∧
      ((d.createTrigger symbol kind v1 t1 ok1).1.createTrigger symbol kind v2 t2 ok2).1 =
        (d.createTrigger symbol kind v1 t1 ok1).1 ∧
      ((d.createTrigger symbol kind v1 t1 ok1).1.createTrigger symbol kind v2 t2 ok2).2 =
        [] := by
  have h1 : d.createTrigger symbol kind v1 t1 ok1 =
      ({ d with
          circuitBreaker := (d.circuitBreaker.isBlocked symbol t1).1,
          recentTriggers := mapSet d.recentTriggers (symbol ++ "-" ++ kind) t1 },
        if ok1 then [.insertTrigger symbol kind v1] else []) := by
    unfold TriggerDetector.createTrigger
    rw [if_neg (not_lt.mpr hcd), if_neg (by rw [hnb]; exact Bool.noConfusion)]
    cases ok1 <;> rfl
  have hset : mapGet (mapSet d.recentTriggers (symbol ++ "-" ++ kind) t1)
      (symbol ++ "-" ++ kind) = some t1 := mapGet_mapSet_self _ _ _
  have hget : mapGet (d.createTrigger symbol kind v1 t1 ok1).1.recentTriggers
      (symbol ++ "-" ++ kind) = some t1 := by
    rw [h1]
    exact hset
  have h2 := createTrigger_skip (d.createTrigger symbol kind v1 t1 ok1).1 symbol kind v2 t2 ok2
    (by rw [hget]; exact hwin)
  refine ⟨hget, ?_, ?_, ?_, ?_⟩
  · intro h
    rw [h1, h]
    rfl
  · intro h
    rw [h1, h]
    rfl
  · rw [h2]
  · rw [h2]

def dC6 : TriggerDetector :=
  ⟨[], ⟨[], []⟩, ⟨[]⟩, ⟨[], []⟩, VOLUME_SPIKE_THRESHOLD, PRICE_MOVE_THRESHOLD⟩

/-- Witness for C6: two qualifying volume-spike calls 100 seconds apart —
one persisted trigger, and the second call changes nothing. -/
theorem C6_trigger_cooldown_witness :
    mapGet (dC6.createTrigger "BTCUSDT" "volume_spike" 2 1000000 true).1.recentTriggers
        ("BTCUSDT" ++ "-" ++ "volume_spike") = some 1000000 ∧
      (true = true → (dC6.createTrigger "BTCUSDT" "volume_spike" 2 1000000 true).2 =
        [.insertTrigger "BTCUSDT" "volume_spike" 2]) ∧
      (true = false → (dC6.createTrigger "BTCUSDT" "volume_spike" 2 1000000 true).2 = []) ∧
      ((dC6.createTrigger "BTCUSDT" "volume_spike" 2 1000000 true).1.createTrigger
          "BTCUSDT" "volume_spike" 3 1100000 true).1 =
        (dC6.createTrigger "BTCUSDT" "volume_spike" 2 1000000 true).1 ∧
      ((dC6.createTrigger "BTCUSDT" "volume_spike" 2 1000000 true).1.createTrigger
          "BTCUSDT" "volume_spike" 3 1100000 true).2 = [] :=
  C6_trigger_cooldown dC6 "BTCUSDT" "volume_spike" 2 3 1000000 1100000 true true
    (by decide) (by decide) (by decide)
